import Mathlib

/-!
Shallow embedding of the geofence-based attendance tracker.

Source layout:
* `src/unnamed/part_000` — home/map screen: geofence evaluator
  (`calculateDistance`, `deg2rad`, `updateLocationStatus`), attendance
  transitions (`handleAttendance`, `getAttendanceStatus`, `calculateHours`),
  and the attendance-history screen (`fetchHistory`, `filteredHistory`).
* `src/unnamed/part_001` — profile screen: geofence assignment
  (`handleSaveGeofence`) and role-change request handling
  (`handleRejectRequest`).

Conventions of the embedding:
* JS numbers on the geofence path are modelled as real numbers `ℝ`;
  timestamps (`Date.getTime()` milliseconds) as integers `ℤ`; the
  two-decimal rounding of `Number.prototype.toFixed(2)` as exact rational
  arithmetic with round-half-up.
* `AsyncStorage` key/value slices are modelled as explicit state threaded
  through each handler; a handler that performs no `setItem` returns its
  store component unchanged.
* ISO date strings are kept abstract: `Date` parsing of a date string is an
  uninterpreted parameter `dateMs : String → ℤ`, and the calendar day is a
  plain `String` (the `toISOString().split('T')[0]` value).
* JS falsy checks on string fields (`record.name || emp.name`) are modelled
  with `""` as the missing value.
-/

/-! ### Geofence evaluator (part_000, `calculateDistance` / `updateLocationStatus`) -/

/-- A latitude/longitude pair (`location.coords`). -/
structure Coords where
  latitude : ℝ
  longitude : ℝ

/-- The geofence attached to a user (`user.assignedLocation` as consumed by the
home screen): center coordinates plus a radius in meters (source field
`radius`, called `radiusMeters` in the documentation). -/
structure Geofence where
  name : String
  latitude : ℝ
  longitude : ℝ
  radius : ℝ

/-- The home screen's `locationStatus` state. -/
inductive LocationStatus where
  | inside
  | outside
  | unknown
  deriving DecidableEq

/-- `deg2rad` from part_000: degrees to radians. -/
noncomputable def deg2rad (deg : ℝ) : ℝ := deg * (Real.pi / 180)

/-- JavaScript `Math.atan2 y x` on real inputs. -/
noncomputable def atan2 (y x : ℝ) : ℝ :=
  if 0 < x then Real.arctan (y / x)
  else if x < 0 then
    (if 0 ≤ y then Real.arctan (y / x) + Real.pi else Real.arctan (y / x) - Real.pi)
  else
    (if 0 < y then Real.pi / 2 else if y < 0 then -(Real.pi / 2) else 0)

/-- `calculateDistance` from part_000: haversine great-circle distance in km,
Earth radius 6371 km. -/
noncomputable def calculateDistance (lat1 lon1 lat2 lon2 : ℝ) : ℝ :=
  let R : ℝ := 6371
  let dLat := deg2rad (lat2 - lat1)
  let dLon := deg2rad (lon2 - lon1)
  let a := Real.sin (dLat / 2) * Real.sin (dLat / 2) +
    Real.cos (deg2rad lat1) * Real.cos (deg2rad lat2) *
    Real.sin (dLon / 2) * Real.sin (dLon / 2)
  let c := 2 * atan2 (Real.sqrt a) (Real.sqrt (1 - a))
  R * c

/-- The classification performed by `updateLocationStatus` in part_000: with no
geofence the status is `unknown`; otherwise the position is `inside` exactly
when the haversine distance to the center is at most `radius / 1000` km.
(The function's side write of an `EmployeeLocationSnapshot` goes to the
separate `employeeLocations` key and is not part of the attendance ledger.) -/
noncomputable def updateLocationStatus (geofence : Option Geofence) (pos : Coords) :
    LocationStatus :=
  match geofence with
  | none => .unknown
  | some g =>
      if calculateDistance pos.latitude pos.longitude g.latitude g.longitude ≤
          g.radius / 1000 then .inside else .outside

/-- The haversine distance from a point to itself is zero. -/
theorem calculateDistance_self (lat lon : ℝ) : calculateDistance lat lon lat lon = 0 := by
  unfold calculateDistance deg2rad atan2
  norm_num [Real.sin_zero, Real.sqrt_zero, Real.sqrt_one, Real.arctan_zero]

/-- C1: with a geofence assigned, the evaluator reports `inside` iff the
haversine distance (Earth radius 6371 km) is at most `radius/1000` km; with no
geofence it reports `unknown`; a position equal to the center is `inside`
whenever `radius > 0`; a position strictly farther than `radius/1000` km is
`outside`. -/
theorem C1_geofence_evaluator (pos : Coords) (g : Geofence) (hr : 0 < g.radius) :
    (updateLocationStatus (some g) pos = .inside ↔
      calculateDistance pos.latitude pos.longitude g.latitude g.longitude ≤ g.radius / 1000)
    ∧ updateLocationStatus none pos = .unknown
    ∧ (pos.latitude = g.latitude → pos.longitude = g.longitude →
        updateLocationStatus (some g) pos = .inside)
    ∧ (g.radius / 1000 < calculateDistance pos.latitude pos.longitude g.latitude g.longitude →
        updateLocationStatus (some g) pos = .outside) := by
  refine ⟨?_, rfl, ?_, ?_⟩
  · simp only [updateLocationStatus]
    split <;> simp_all
  · intro hlat hlon
    simp only [updateLocationStatus]
    rw [hlat, hlon, calculateDistance_self, if_pos (by positivity)]
  · intro hgt
    simp only [updateLocationStatus]
    rw [if_neg (not_le.mpr hgt)]

/-- Concrete run of `C1_geofence_evaluator`: a position at the center of a
100 m geofence is classified `inside`. -/
theorem C1_geofence_evaluator_witness :
    updateLocationStatus (some ⟨"HQ", 5, 6, 100⟩) ⟨5, 6⟩ = .inside :=
  (C1_geofence_evaluator ⟨5, 6⟩ ⟨"HQ", 5, 6, 100⟩ (by norm_num)).2.2.1 rfl rfl

/-! ### Attendance state machine (part_000, `handleAttendance` / `calculateHours`) -/

/-- The authenticated user fields used by the attendance path. -/
structure UserInfo where
  email : String
  name : String
  department : String

/-- One persisted attendance record (the JSON stored under an
`attendance_<email>_<date>` key). Timestamps are milliseconds since epoch. -/
structure AttendanceRecord where
  date : String
  email : String
  name : String
  department : String
  checkInTime : ℤ
  checkInLocation : Coords
  checkOutTime : Option ℤ
  checkOutLocation : Option Coords
  totalHours : Option ℚ

/-- The `attendance_*` slice of `AsyncStorage`, keyed by full key string. -/
abbrev AttStore := String → Option AttendanceRecord

/-- The composite key `attendance_${user.email}_${today}`. -/
def attendanceKey (email today : String) : String :=
  "attendance_" ++ email ++ "_" ++ today

/-- `AsyncStorage.setItem` on the attendance slice. -/
def setItem (s : AttStore) (k : String) (v : AttendanceRecord) : AttStore :=
  fun k' => if k' = k then some v else s k'

/-- `Number.prototype.toFixed(2)` followed by `parseFloat`, on exact rationals:
round to the nearest multiple of 1/100, half away from zero toward the larger
value. -/
def round2 (q : ℚ) : ℚ := (⌊q * 100 + 1 / 2⌋ : ℤ) / 100

/-- `calculateHours` from part_000: elapsed milliseconds divided by
`1000 * 60 * 60`, rounded to two decimals. -/
def calculateHours (startTime endTime : ℤ) : ℚ :=
  round2 (((endTime - startTime : ℤ) : ℚ) / (1000 * 60 * 60))

/-- `getAttendanceStatus` from part_000: a stored record with `checkOutTime`
present means "not currently checked in" (`false`); a record without it means
checked in (`true`); no record means `false`. -/
def getAttendanceStatus (s : AttStore) (email today : String) : Bool :=
  match s (attendanceKey email today) with
  | some data => if data.checkOutTime.isSome then false else true
  | none => false

/-- Outcome tag of one press of the check-in/check-out button: which `Alert`
fired and which branch ran. -/
inductive AttResult where
  | errNoGeofence
  | errCachedOutside
  | errLocationFailed
  | errFreshOutside
  | checkedIn
  | checkedOut
  deriving DecidableEq

/-- Result state of `handleAttendance`: the attendance slice, the screen's
`attendanceStatus` flag, and the outcome tag. -/
structure AttOutcome where
  store : AttStore
  attendanceStatus : Bool
  result : AttResult

/-- The record written by the check-in branch of `handleAttendance`. -/
def checkInRecord (user : UserInfo) (pos : Coords) (today : String) (now : ℤ) :
    AttendanceRecord :=
  { date := today
    email := user.email
    name := user.name
    department := user.department
    checkInTime := now
    checkInLocation := pos
    checkOutTime := none
    checkOutLocation := none
    totalHours := none }

/-- `handleAttendance` from part_000. Arguments mirror the screen state it
reads: the cached `locationStatus` and `attendanceStatus`, the freshly sampled
position (`none` when `getCurrentPositionAsync` throws, which lands in the
`catch` branch), the day string and current time, and the attendance slice.
The early guards return without writing; the fresh sample is re-checked
against the geofence before any write. Its call to `updateLocationStatus`
touches only the separate `employeeLocations` key, not the attendance slice. -/
noncomputable def handleAttendance (user : UserInfo) (geofence : Option Geofence)
    (locationStatus : LocationStatus) (attendanceStatus : Bool)
    (fresh : Option Coords) (today : String) (now : ℤ) (store : AttStore) : AttOutcome :=
  match geofence with
  | none => ⟨store, attendanceStatus, .errNoGeofence⟩
  | some g =>
      if locationStatus ≠ LocationStatus.inside then
        ⟨store, attendanceStatus, .errCachedOutside⟩
      else
        match fresh with
        | none => ⟨store, attendanceStatus, .errLocationFailed⟩
        | some pos =>
            if calculateDistance pos.latitude pos.longitude g.latitude g.longitude ≤
                g.radius / 1000 then
              match store (attendanceKey user.email today) with
              | none =>
                  ⟨setItem store (attendanceKey user.email today)
                      (checkInRecord user pos today now), true, .checkedIn⟩
              | some stored =>
                  if attendanceStatus = false then
                    ⟨setItem store (attendanceKey user.email today)
                        (checkInRecord user pos today now), true, .checkedIn⟩
                  else
                    ⟨setItem store (attendanceKey user.email today)
                        { stored with
                            checkOutTime := some now
                            checkOutLocation := some pos
                            totalHours := some (calculateHours stored.checkInTime now) },
                      false, .checkedOut⟩
            else
              ⟨store, attendanceStatus, .errFreshOutside⟩

/-- C2: a check-in followed by a same-day check-out, both freshly sampled
inside the geofence, leaves exactly one record under the user-and-day key with
both timestamps set and `totalHours = round2((out - in) / 3600000)`. -/
theorem C2_checkin_then_checkout (u : UserInfo) (g : Geofence) (p1 p2 : Coords)
    (d : String) (t1 t2 : ℤ) (s0 : AttStore)
    (h0 : s0 (attendanceKey u.email d) = none)
    (h1 : calculateDistance p1.latitude p1.longitude g.latitude g.longitude ≤ g.radius / 1000)
    (h2 : calculateDistance p2.latitude p2.longitude g.latitude g.longitude ≤ g.radius / 1000) :
    let o1 := handleAttendance u (some g) .inside false (some p1) d t1 s0
    let o2 := handleAttendance u (some g) .inside o1.attendanceStatus (some p2) d t2 o1.store
    o1.result = .checkedIn ∧ o2.result = .checkedOut ∧
    o2.store (attendanceKey u.email d) =
      some { date := d, email := u.email, name := u.name, department := u.department,
             checkInTime := t1, checkInLocation := p1,
             checkOutTime := some t2, checkOutLocation := some p2,
             totalHours := some (calculateHours t1 t2) } ∧
    calculateHours t1 t2 = round2 (((t2 - t1 : ℤ) : ℚ) / 3600000) := by
  have e1 : handleAttendance u (some g) LocationStatus.inside false (some p1) d t1 s0 =
      ⟨setItem s0 (attendanceKey u.email d) (checkInRecord u p1 d t1), true, .checkedIn⟩ := by
    simp [handleAttendance, h0, h1]
  have e2 : handleAttendance u (some g) LocationStatus.inside true (some p2) d t2
      (setItem s0 (attendanceKey u.email d) (checkInRecord u p1 d t1)) =
      ⟨setItem (setItem s0 (attendanceKey u.email d) (checkInRecord u p1 d t1))
          (attendanceKey u.email d)
          { date := d, email := u.email, name := u.name, department := u.department,
            checkInTime := t1, checkInLocation := p1, checkOutTime := some t2,
            checkOutLocation := some p2, totalHours := some (calculateHours t1 t2) },
        false, .checkedOut⟩ := by
    simp [handleAttendance, h2, setItem, checkInRecord]
  refine ⟨?_, ?_, ?_, ?_⟩
  · rw [e1]
  · simp only [e1, e2]
  · simp only [e1, e2, setItem, if_pos]
  · simp only [calculateHours]
    norm_num

/-- Concrete run of `C2_checkin_then_checkout`: check-in at t = 0 ms and
check-out at t = 30,600,000 ms (8 h 30 min later) on the same day yields one
completed record, and its total is 8.5 hours. -/
theorem C2_checkin_then_checkout_witness :
    (let o1 := handleAttendance ⟨"e@x", "E", "Eng"⟩ (some ⟨"HQ", 0, 0, 100⟩) .inside false
        (some ⟨0, 0⟩) "2024-01-01" 0 (fun _ => none)
     let o2 := handleAttendance ⟨"e@x", "E", "Eng"⟩ (some ⟨"HQ", 0, 0, 100⟩) .inside
        o1.attendanceStatus (some ⟨0, 0⟩) "2024-01-01" 30600000 o1.store
     o1.result = .checkedIn ∧ o2.result = .checkedOut ∧
     o2.store (attendanceKey "e@x" "2024-01-01") =
       some { date := "2024-01-01", email := "e@x", name := "E", department := "Eng",
              checkInTime := 0, checkInLocation := ⟨0, 0⟩,
              checkOutTime := some 30600000, checkOutLocation := some ⟨0, 0⟩,
              totalHours := some (calculateHours 0 30600000) } ∧
     calculateHours 0 30600000 = round2 (((30600000 - 0 : ℤ) : ℚ) / 3600000)) ∧
    calculateHours 0 30600000 = 17 / 2 := by
  constructor
  · exact C2_checkin_then_checkout ⟨"e@x", "E", "Eng"⟩ ⟨"HQ", 0, 0, 100⟩ ⟨0, 0⟩ ⟨0, 0⟩
      "2024-01-01" 0 30600000 (fun _ => none) rfl
      (by show calculateDistance 0 0 0 0 ≤ 100 / 1000; rw [calculateDistance_self]; norm_num)
      (by show calculateDistance 0 0 0 0 ≤ 100 / 1000; rw [calculateDistance_self]; norm_num)
  · norm_num [calculateHours, round2]

/-- C3 fails on the code: with a completed (checked-out) record stored for the
day and the session flag derived from it by `getAttendanceStatus` (which is
`false` for a record with `checkOutTime` set), a further press of the
attendance button inside the geofence re-enters the check-in branch of
`handleAttendance` and replaces the day's record — `CheckedOut` is not
terminal. -/
theorem C3_counterexample :
    let recC : AttendanceRecord :=
      { date := "2024-01-01", email := "e@x", name := "E", department := "Eng",
        checkInTime := 0, checkInLocation := ⟨0, 0⟩, checkOutTime := some 30600000,
        checkOutLocation := some ⟨0, 0⟩, totalHours := some (17 / 2) }
    let s : AttStore :=
      fun k => if k = attendanceKey "e@x" "2024-01-01" then some recC else none
    let o := handleAttendance ⟨"e@x", "E", "Eng"⟩ (some ⟨"HQ", 0, 0, 100⟩) .inside
        (getAttendanceStatus s "e@x" "2024-01-01") (some ⟨0, 0⟩) "2024-01-01" 40000000 s
    o.result = .checkedIn ∧
    o.store (attendanceKey "e@x" "2024-01-01") ≠ some recC := by
  have hd : calculateDistance (0 : ℝ) 0 0 0 ≤ 100 / 1000 := by
    rw [calculateDistance_self]; norm_num
  constructor
  · simp [handleAttendance, getAttendanceStatus, hd]
  · simp [handleAttendance, getAttendanceStatus, hd, setItem, checkInRecord]

/-- C3 amended: once the day's record has `checkOutTime` set, the session flag
recomputed from storage is `false`, and a subsequent same-day attendance
action inside the geofence does modify the stored record: it overwrites it
with a fresh check-in record, so `CheckedOut` loops back to `CheckedIn`
rather than being terminal. -/
theorem C3_checkout_not_terminal (u : UserInfo) (g : Geofence) (pos : Coords)
    (d : String) (t : ℤ) (s : AttStore) (stored : AttendanceRecord)
    (hs : s (attendanceKey u.email d) = some stored)
    (hco : stored.checkOutTime.isSome = true)
    (hin : calculateDistance pos.latitude pos.longitude g.latitude g.longitude ≤
      g.radius / 1000) :
    getAttendanceStatus s u.email d = false ∧
    handleAttendance u (some g) .inside (getAttendanceStatus s u.email d) (some pos) d t s =
      ⟨setItem s (attendanceKey u.email d) (checkInRecord u pos d t), true, .checkedIn⟩ := by
  have hst : getAttendanceStatus s u.email d = false := by
    simp [getAttendanceStatus, hs, hco]
  refine ⟨hst, ?_⟩
  rw [hst]
  simp [handleAttendance, hs, hin]

/-- Concrete run of `C3_checkout_not_terminal`: a checked-out record for the
day is overwritten by a new check-in at t = 40,000,000 ms. -/
theorem C3_checkout_not_terminal_witness :
    let recC : AttendanceRecord :=
      { date := "2024-01-01", email := "w@x", name := "W", department := "Eng",
        checkInTime := 0, checkInLocation := ⟨0, 0⟩, checkOutTime := some 30600000,
        checkOutLocation := some ⟨0, 0⟩, totalHours := some (17 / 2) }
    let s : AttStore :=
      fun k => if k = attendanceKey "w@x" "2024-01-01" then some recC else none
    getAttendanceStatus s "w@x" "2024-01-01" = false ∧
    handleAttendance ⟨"w@x", "W", "Eng"⟩ (some ⟨"HQ", 0, 0, 100⟩) .inside
        (getAttendanceStatus s "w@x" "2024-01-01") (some ⟨0, 0⟩) "2024-01-01" 40000000 s =
      ⟨setItem s (attendanceKey "w@x" "2024-01-01")
          (checkInRecord ⟨"w@x", "W", "Eng"⟩ ⟨0, 0⟩ "2024-01-01" 40000000),
        true, .checkedIn⟩ :=
  C3_checkout_not_terminal ⟨"w@x", "W", "Eng"⟩ ⟨"HQ", 0, 0, 100⟩ ⟨0, 0⟩ "2024-01-01"
    40000000
    (fun k => if k = attendanceKey "w@x" "2024-01-01" then
        some { date := "2024-01-01", email := "w@x", name := "W", department := "Eng",
               checkInTime := 0, checkInLocation := ⟨0, 0⟩, checkOutTime := some 30600000,
               checkOutLocation := some ⟨0, 0⟩, totalHours := some (17 / 2) }
      else none)
    { date := "2024-01-01", email := "w@x", name := "W", department := "Eng",
      checkInTime := 0, checkInLocation := ⟨0, 0⟩, checkOutTime := some 30600000,
      checkOutLocation := some ⟨0, 0⟩, totalHours := some (17 / 2) }
    (by simp) rfl
    (by show calculateDistance 0 0 0 0 ≤ 100 / 1000; rw [calculateDistance_self]; norm_num)

/-- C4: with no assigned geofence, one press of the attendance button fails
with the "no assigned location" error and leaves the attendance slice and the
session flag exactly as they were, for every prior state. -/
theorem C4_no_geofence_no_write (u : UserInfo) (ls : LocationStatus) (astat : Bool)
    (fresh : Option Coords) (d : String) (t : ℤ) (s : AttStore) :
    handleAttendance u none ls astat fresh d t s = ⟨s, astat, .errNoGeofence⟩ := rfl

/-- The haversine distance from latitude 180, longitude 0 to the origin is
6371·π km. -/
theorem calculateDistance_antipodal : calculateDistance 180 0 0 0 = 6371 * Real.pi := by
  have hdLat : deg2rad ((0 : ℝ) - 180) = -Real.pi := by unfold deg2rad; ring
  have hlat1 : deg2rad (180 : ℝ) = Real.pi := by unfold deg2rad; ring
  have hlat2 : deg2rad (0 : ℝ) = 0 := by unfold deg2rad; ring
  have hdLon : deg2rad ((0 : ℝ) - 0) = 0 := by unfold deg2rad; ring
  simp only [calculateDistance]
  rw [hdLat, hlat1, hlat2, hdLon]
  norm_num [neg_div, Real.sin_neg, Real.sin_pi_div_two, Real.cos_pi, Real.cos_zero,
    Real.sin_zero, Real.sqrt_one, Real.sqrt_zero, atan2, Real.pi_pos]
  ring

/-- C5: the transition decision uses the freshly sampled position: even when
the cached status says `inside`, a fresh sample strictly farther than
`radius/1000` km makes the press fail with no write to the attendance slice,
and a failed position query likewise fails with no write. -/
theorem C5_fresh_resample_outside (u : UserInfo) (g : Geofence) (astat : Bool)
    (pos : Coords) (d : String) (t : ℤ) (s : AttStore)
    (hout : g.radius / 1000 <
      calculateDistance pos.latitude pos.longitude g.latitude g.longitude) :
    handleAttendance u (some g) .inside astat (some pos) d t s =
      ⟨s, astat, .errFreshOutside⟩ ∧
    handleAttendance u (some g) .inside astat none d t s =
      ⟨s, astat, .errLocationFailed⟩ := by
  constructor
  · simp [handleAttendance, not_le.mpr hout]
  · simp [handleAttendance]

/-- Concrete run of `C5_fresh_resample_outside`: with cached status `inside`
but a fresh sample 6371·π km away from the 100 m geofence, the press fails
and the empty store stays empty. -/
theorem C5_fresh_resample_outside_witness :
    (100 : ℝ) / 1000 < calculateDistance 180 0 0 0 ∧
    handleAttendance ⟨"e@x", "E", "Eng"⟩ (some ⟨"HQ", 0, 0, 100⟩) .inside false
        (some ⟨180, 0⟩) "2024-01-01" 0 (fun _ => none) =
      ⟨fun _ => none, false, .errFreshOutside⟩ := by
  have hlt : (100 : ℝ) / 1000 < calculateDistance 180 0 0 0 := by
    rw [calculateDistance_antipodal]
    linarith [Real.pi_gt_three]
  exact ⟨hlt, (C5_fresh_resample_outside ⟨"e@x", "E", "Eng"⟩ ⟨"HQ", 0, 0, 100⟩ false
    ⟨180, 0⟩ "2024-01-01" 0 (fun _ => none) hlt).1⟩

/-! ### Identity store and attendance history (part_000, `fetchHistory` /
`filteredHistory`; part_001, `handleSaveGeofence` / `handleRejectRequest`) -/

/-- A user's role. -/
inductive Role where
  | employee
  | admin
  deriving DecidableEq

/-- A geofence assignment as persisted by `handleSaveGeofence` in part_001:
the raw form strings are stored (consumers apply `parseFloat` on read). -/
structure StoredGeofence where
  name : String
  latitude : String
  longitude : String
  radius : String
  deriving DecidableEq

/-- A record of the persisted `users` collection. JS-absent string fields are
modelled as `""`. -/
structure User where
  email : String
  password : String
  name : String
  department : String
  role : Role
  assignedLocation : Option StoredGeofence
  roleChangeRequested : Bool
  notificationSettings : String
  deriving DecidableEq

/-- An attendance-history row as consumed by the history screen: a parsed
ledger record or a synthesized placeholder. Absent string fields are `""`;
`status` is only set on placeholders. -/
structure HistRecord where
  email : String
  name : String
  department : String
  date : String
  checkInTime : Option ℤ
  checkOutTime : Option ℤ
  totalHours : Option ℚ
  status : Option String
  deriving DecidableEq

/-- The requesting user as seen by the history screen. -/
structure Requester where
  email : String
  role : Role

/-- The store slices read by `fetchHistory`: the `users` collection and the
parsed values of all `attendance_*` keys. -/
structure HistState where
  users : List User
  attendance : List HistRecord

/-- The sort key of `fetchHistory` and `filteredHistory`:
`new Date(rec.checkInTime || rec.date || 0)`, with `Date`-parsing of a date
string abstracted as `dateMs` and the empty string falsy. -/
def recKey (dateMs : String → ℤ) (r : HistRecord) : ℤ :=
  match r.checkInTime with
  | some t => t
  | none => if r.date = "" then 0 else dateMs r.date

/-- The admin-only enrichment step of `fetchHistory`: a record missing its
name or department is completed from the employee with the same email, when
one exists. -/
def enrichRecord (role : Role) (employees : List User) (r : HistRecord) : HistRecord :=
  if role = Role.admin ∧ (r.name = "" ∨ r.department = "") then
    match employees.find? (fun e => e.email == r.email) with
    | some emp =>
        { r with
            name := if r.name = "" then emp.name else r.name
            department := if r.department = "" then emp.department else r.department }
    | none => r
  else r

/-- The placeholder row `fetchHistory` synthesizes per employee for an admin
with an empty ledger. -/
def placeholderRecord (today : String) (now : ℤ) (emp : User) : HistRecord :=
  { email := emp.email, name := emp.name, department := emp.department, date := today,
    checkInTime := some now, checkOutTime := none, totalHours := none,
    status := some "No attendance recorded" }

/-- The newest-first comparison used on history rows. -/
def newerFirst (dateMs : String → ℤ) (a b : HistRecord) : Prop :=
  recKey dateMs b ≤ recKey dateMs a

instance (dateMs : String → ℤ) : DecidableRel (newerFirst dateMs) :=
  fun a b => inferInstanceAs (Decidable (recKey dateMs b ≤ recKey dateMs a))

/-- `fetchHistory` from part_000, returning the displayed history and the
(untouched) store: filter employees out of the `users` collection, enrich the
parsed ledger records (admin only), synthesize placeholder rows when an admin
has an empty ledger but employees on file, sort newest-first, and restrict a
non-admin to their own records. The function performs no `setItem`, so the
store component passes through. -/
def fetchHistory (user : Requester) (st : HistState) (today : String) (now : ℤ)
    (dateMs : String → ℤ) : List HistRecord × HistState :=
  let employees := st.users.filter (fun u => decide (u.role = Role.employee))
  let parsed := st.attendance.map (enrichRecord user.role employees)
  let withPlaceholders :=
    if user.role = Role.admin ∧ parsed = [] ∧ employees ≠ [] then
      employees.map (placeholderRecord today now)
    else parsed
  let sorted := List.insertionSort (newerFirst dateMs) withPlaceholders
  let final :=
    if user.role ≠ Role.admin then
      sorted.filter (fun r => decide (r.email = user.email))
    else sorted
  (final, st)

/-- The period filter of `filteredHistory`. -/
inductive PeriodFilter where
  | all
  | week
  | month
  deriving DecidableEq

/-- `filteredHistory` from part_000: an admin's department filter (inactive on
the sentinel `"All"`), then the period filter. The week window is
`[now - 7 days, now]` in ms; the month window bound `monthAgo` (calendar month
subtraction) is kept abstract. -/
def filteredHistory (role : Role) (selectedDept : String) (filter : PeriodFilter)
    (now monthAgo : ℤ) (dateMs : String → ℤ) (attendanceHistory : List HistRecord) :
    List HistRecord :=
  let history :=
    if role = Role.admin ∧ selectedDept ≠ "All" then
      attendanceHistory.filter (fun r => decide (r.department = selectedDept))
    else attendanceHistory
  match filter with
  | .all => history
  | .week => history.filter (fun item =>
      decide (now - 604800000 ≤ recKey dateMs item ∧ recKey dateMs item ≤ now))
  | .month => history.filter (fun item =>
      decide (monthAgo ≤ recKey dateMs item ∧ recKey dateMs item ≤ now))

instance (dateMs : String → ℤ) : IsTotal HistRecord (newerFirst dateMs) :=
  ⟨fun a b => le_total (recKey dateMs b) (recKey dateMs a)⟩

instance (dateMs : String → ℤ) : IsTrans HistRecord (newerFirst dateMs) :=
  ⟨fun _ _ _ hab hbc => le_trans hbc hab⟩

/-- The history list returned by `fetchHistory` is sorted newest-first. -/
theorem fetchHistory_sorted (user : Requester) (st : HistState) (today : String)
    (now : ℤ) (dateMs : String → ℤ) :
    ((fetchHistory user st today now dateMs).1).Sorted (newerFirst dateMs) := by
  simp only [fetchHistory]
  by_cases h : user.role ≠ Role.admin
  · rw [if_pos h]
    exact (List.sorted_insertionSort _ _).filter _
  · rw [if_neg h]
    exact List.sorted_insertionSort _ _

/-- C6: a non-admin query returns only the requester's own records; an admin
query with a nonempty ledger returns a permutation of all parsed (enriched)
ledger records, with no per-user filtering. -/
theorem C6_history_visibility (me : Requester) (st : HistState) (today : String)
    (now : ℤ) (dateMs : String → ℤ) :
    (me.role ≠ Role.admin →
      ∀ r ∈ (fetchHistory me st today now dateMs).1, r.email = me.email) ∧
    (me.role = Role.admin → st.attendance ≠ [] →
      (fetchHistory me st today now dateMs).1.Perm
        (st.attendance.map (enrichRecord Role.admin
          (st.users.filter (fun u => decide (u.role = Role.employee)))))) := by
  constructor
  · intro hrole r hr
    simp only [fetchHistory] at hr
    rw [if_pos hrole] at hr
    exact of_decide_eq_true (List.mem_filter.mp hr).2
  · intro hrole hne
    have hpar : st.attendance.map (enrichRecord Role.admin
        (st.users.filter (fun u => decide (u.role = Role.employee)))) ≠ [] := by
      simpa using hne
    simp only [fetchHistory]
    rw [hrole, if_neg (by simp : ¬(Role.admin ≠ Role.admin)), if_neg (fun hc => hpar hc.2.1)]
    exact List.perm_insertionSort _ _

/-- Concrete run of `C6_history_visibility`: an admin query over a two-record
ledger returns a permutation of both records, including another user's. -/
theorem C6_history_visibility_witness :
    (fetchHistory ⟨"a@x", Role.admin⟩
        ⟨[⟨"e@x", "pw", "E", "Eng", Role.employee, none, false, ""⟩],
          [⟨"e@x", "E", "Eng", "2024-01-01", some 5, none, none, none⟩,
           ⟨"o@x", "O", "Ops", "2024-01-02", some 9, none, none, none⟩]⟩
        "2024-01-03" 100 (fun _ => 0)).1.Perm
      (([⟨"e@x", "E", "Eng", "2024-01-01", some 5, none, none, none⟩,
         ⟨"o@x", "O", "Ops", "2024-01-02", some 9, none, none, none⟩] : List HistRecord).map
        (enrichRecord Role.admin
          (([⟨"e@x", "pw", "E", "Eng", Role.employee, none, false, ""⟩] : List User).filter
            (fun u => decide (u.role = Role.employee))))) :=
  (C6_history_visibility ⟨"a@x", Role.admin⟩
    ⟨[⟨"e@x", "pw", "E", "Eng", Role.employee, none, false, ""⟩],
      [⟨"e@x", "E", "Eng", "2024-01-01", some 5, none, none, none⟩,
       ⟨"o@x", "O", "Ops", "2024-01-02", some 9, none, none, none⟩]⟩
    "2024-01-03" 100 (fun _ => 0)).2 rfl (by simp)

/-- C7: an admin query filtered to a department (not the sentinel `"All"`)
with the week period returns only records of that department whose key
(check-in time, falling back to the record's date) lies in
`[now - 7 days, now]`, and the returned sequence is sorted newest-first. -/
theorem C7_admin_dept_week (st : HistState) (today : String) (now0 now monthAgo : ℤ)
    (dateMs : String → ℤ) (adminEmail dept : String) (hdept : dept ≠ "All") :
    (∀ r ∈ filteredHistory Role.admin dept .week now monthAgo dateMs
        (fetchHistory ⟨adminEmail, Role.admin⟩ st today now0 dateMs).1,
      r.department = dept ∧ now - 604800000 ≤ recKey dateMs r ∧ recKey dateMs r ≤ now) ∧
    (filteredHistory Role.admin dept .week now monthAgo dateMs
        (fetchHistory ⟨adminEmail, Role.admin⟩ st today now0 dateMs).1).Sorted
      (newerFirst dateMs) := by
  constructor
  · intro r hr
    simp only [filteredHistory] at hr
    rw [if_pos ⟨trivial, hdept⟩] at hr
    have h2 := List.mem_filter.mp hr
    have h1 := List.mem_filter.mp h2.1
    exact ⟨of_decide_eq_true h1.2, of_decide_eq_true h2.2⟩
  · simp only [filteredHistory]
    rw [if_pos ⟨trivial, hdept⟩]
    exact ((fetchHistory_sorted _ _ _ _ _).filter _).filter _

/-- Concrete run of `C7_admin_dept_week`: the Engineering/week view of a
one-record ledger is sorted newest-first. -/
theorem C7_admin_dept_week_witness :
    (filteredHistory Role.admin "Eng" .week 100 0 (fun _ => 0)
        (fetchHistory ⟨"a@x", Role.admin⟩
          ⟨[], [⟨"e@x", "E", "Eng", "2024-01-01", some 5, none, none, none⟩]⟩
          "2024-01-03" 100 (fun _ => 0)).1).Sorted (newerFirst (fun _ => 0)) :=
  (C7_admin_dept_week ⟨[], [⟨"e@x", "E", "Eng", "2024-01-01", some 5, none, none, none⟩]⟩
    "2024-01-03" 100 100 0 (fun _ => 0) "a@x" "Eng" (by simp)).2

/-- Every pair of a list satisfies a relation that holds universally. -/
theorem list_pairwise_of_forall {α : Type _} {R : α → α → Prop} (h : ∀ a b, R a b) :
    ∀ l : List α, l.Pairwise R
  | [] => List.Pairwise.nil
  | a :: l => List.Pairwise.cons (fun b _ => h a b) (list_pairwise_of_forall h l)

/-- C8: an admin query over an empty ledger with employees on file returns
exactly one placeholder row per employee, each marked
"No attendance recorded", and writes nothing: the store passes through
unchanged. -/
theorem C8_admin_placeholders (st : HistState) (today : String) (now : ℤ)
    (dateMs : String → ℤ) (adminEmail : String)
    (hatt : st.attendance = [])
    (hemp : st.users.filter (fun u => decide (u.role = Role.employee)) ≠ []) :
    (fetchHistory ⟨adminEmail, Role.admin⟩ st today now dateMs).1 =
      (st.users.filter (fun u => decide (u.role = Role.employee))).map
        (placeholderRecord today now) ∧
    (∀ r ∈ (fetchHistory ⟨adminEmail, Role.admin⟩ st today now dateMs).1,
      r.status = some "No attendance recorded") ∧
    (fetchHistory ⟨adminEmail, Role.admin⟩ st today now dateMs).2 = st := by
  have hsorted : ((st.users.filter (fun u => decide (u.role = Role.employee))).map
      (placeholderRecord today now)).Sorted (newerFirst dateMs) :=
    List.pairwise_map.mpr (list_pairwise_of_forall
      (fun a b => by simp [newerFirst, recKey, placeholderRecord]) _)
  have hmain : (fetchHistory ⟨adminEmail, Role.admin⟩ st today now dateMs).1 =
      (st.users.filter (fun u => decide (u.role = Role.employee))).map
        (placeholderRecord today now) := by
    simp [fetchHistory, hatt, hemp, List.Sorted.insertionSort_eq hsorted]
  refine ⟨hmain, ?_, rfl⟩
  intro r hr
  rw [hmain] at hr
  obtain ⟨u, _, rfl⟩ := List.mem_map.mp hr
  rfl

/-- Concrete run of `C8_admin_placeholders`: one employee, empty ledger,
admin view gets exactly the one placeholder row. -/
theorem C8_admin_placeholders_witness :
    (fetchHistory ⟨"a@x", Role.admin⟩
        ⟨[⟨"e@x", "pw", "E", "Eng", Role.employee, none, false, ""⟩], []⟩
        "2024-01-03" 100 (fun _ => 0)).1 =
      (([⟨"e@x", "pw", "E", "Eng", Role.employee, none, false, ""⟩] : List User).filter
        (fun u => decide (u.role = Role.employee))).map (placeholderRecord "2024-01-03" 100) :=
  (C8_admin_placeholders
    ⟨[⟨"e@x", "pw", "E", "Eng", Role.employee, none, false, ""⟩], []⟩
    "2024-01-03" 100 (fun _ => 0) "a@x" rfl (by simp)).1

/-- A role-change request entry of the admin's in-memory list
(`roleRequests` state in part_001). -/
structure RoleRequest where
  id : String
  email : String
  name : String
  deriving DecidableEq

/-- The profile-screen state touched by the role-request flow: the persisted
`users` collection and the admin's in-memory `roleRequests` list. -/
structure ProfileState where
  users : List User
  roleRequests : List RoleRequest
  deriving DecidableEq

/-- `handleRejectRequest` from part_001: it only filters the rejected entry
out of the in-memory list; it performs no store write. -/
def handleRejectRequest (userId : String) (st : ProfileState) : ProfileState :=
  { st with roleRequests := st.roleRequests.filter (fun r => r.id != userId) }

/-- C9: rejecting a role-change request leaves the persisted identity store
untouched — every user record, including its `roleChangeRequested` flag, is
exactly as before, and nothing else is recorded — and only removes the
matching entry from the admin's in-memory request list. -/
theorem C9_reject_request_no_persist (userId : String) (st : ProfileState) :
    (handleRejectRequest userId st).users = st.users ∧
    (handleRejectRequest userId st).roleRequests =
      st.roleRequests.filter (fun r => r.id != userId) :=
  ⟨rfl, rfl⟩

/-- The geofence-assignment form of part_001 (`geofenceLocation` state): raw
input strings. -/
structure GeofenceForm where
  name : String
  latitude : String
  longitude : String
  radius : String

/-- Outcome tag of `handleSaveGeofence`: which `Alert` fired. -/
inductive SaveResult where
  | errNoEmployee
  | errInvalidInput
  | errNoUsersData
  | success
  deriving DecidableEq

/-- The per-user update applied by `handleSaveGeofence`'s `users.map`: a user
whose email matches the selected employee gets the form's raw strings as
`assignedLocation`; everyone else is returned as-is. -/
def assignGeofence (sel : User) (loc : GeofenceForm) (u : User) : User :=
  if u.email = sel.email then
    { u with assignedLocation := some ⟨loc.name, loc.latitude, loc.longitude, loc.radius⟩ }
  else u

/-- `handleSaveGeofence` from part_001. `parseF` abstracts JS `parseFloat`
(`none` for `NaN`); the parsed numbers are used only for validation — the raw
strings are what gets stored. The first component is the `users` value after
the call (unchanged unless the write happened). -/
def handleSaveGeofence (parseF : String → Option ℚ) (selectedEmployee : Option User)
    (loc : GeofenceForm) (usersData : Option (List User)) :
    Option (List User) × SaveResult :=
  match selectedEmployee with
  | none => (usersData, .errNoEmployee)
  | some sel =>
      match parseF loc.latitude, parseF loc.longitude, parseF loc.radius with
      | some _, some _, some _ =>
          match usersData with
          | none => (usersData, .errNoUsersData)
          | some users => (some (users.map (assignGeofence sel loc)), .success)
      | _, _, _ => (usersData, .errInvalidInput)

/-- C10: when the selected employee exists and all three numeric fields
parse, the written-back collection is the read collection mapped pointwise:
users with a different email are unchanged; a user with the matching email
changes only in `assignedLocation` (set to the entered name/latitude/
longitude/radius), with email, password, name, department, role,
`roleChangeRequested` and notification settings preserved. -/
theorem C10_save_geofence_frame (parseF : String → Option ℚ) (sel : User)
    (loc : GeofenceForm) (users : List User) (a b c : ℚ)
    (ha : parseF loc.latitude = some a) (hb : parseF loc.longitude = some b)
    (hc : parseF loc.radius = some c) :
    handleSaveGeofence parseF (some sel) loc (some users) =
      (some (users.map (assignGeofence sel loc)), .success) ∧
    (∀ u : User, u.email ≠ sel.email → assignGeofence sel loc u = u) ∧
    (∀ u : User, u.email = sel.email → assignGeofence sel loc u =
      { u with assignedLocation := some ⟨loc.name, loc.latitude, loc.longitude, loc.radius⟩ }) ∧
    (∀ u : User, (assignGeofence sel loc u).email = u.email ∧
      (assignGeofence sel loc u).password = u.password ∧
      (assignGeofence sel loc u).name = u.name ∧
      (assignGeofence sel loc u).department = u.department ∧
      (assignGeofence sel loc u).role = u.role ∧
      (assignGeofence sel loc u).roleChangeRequested = u.roleChangeRequested ∧
      (assignGeofence sel loc u).notificationSettings = u.notificationSettings) := by
  refine ⟨?_, ?_, ?_, ?_⟩
  · simp [handleSaveGeofence, ha, hb, hc]
  · intro u hne
    simp [assignGeofence, hne]
  · intro u heq
    simp [assignGeofence, heq]
  · intro u
    unfold assignGeofence
    split <;> simp

/-- Concrete run of `C10_save_geofence_frame`: assigning a geofence to the
selected employee rewrites the collection with only that user's
`assignedLocation` changed. -/
theorem C10_save_geofence_frame_witness :
    handleSaveGeofence (fun _ => some 1)
        (some ⟨"e@x", "pw", "E", "Eng", Role.employee, none, false, ""⟩)
        ⟨"HQ", "12.5", "77.6", "100"⟩
        (some [⟨"e@x", "pw", "E", "Eng", Role.employee, none, false, ""⟩,
               ⟨"o@x", "pw2", "O", "Ops", Role.employee, none, false, ""⟩]) =
      (some ([⟨"e@x", "pw", "E", "Eng", Role.employee, none, false, ""⟩,
              ⟨"o@x", "pw2", "O", "Ops", Role.employee, none, false, ""⟩].map
        (assignGeofence ⟨"e@x", "pw", "E", "Eng", Role.employee, none, false, ""⟩
          ⟨"HQ", "12.5", "77.6", "100"⟩)), .success) :=
  (C10_save_geofence_frame (fun _ => some 1)
    ⟨"e@x", "pw", "E", "Eng", Role.employee, none, false, ""⟩
    ⟨"HQ", "12.5", "77.6", "100"⟩
    [⟨"e@x", "pw", "E", "Eng", Role.employee, none, false, ""⟩,
     ⟨"o@x", "pw2", "O", "Ops", Role.employee, none, false, ""⟩]
    1 1 1 rfl rfl rfl).1
